import Mathlib

/-!
Verification of the streamdiffusion-spout-service control plane.

This file shallowly embeds the coordination code of the repository:
the shared control state (`config.py`), the OSC command listener
(`osc_server.py`), the Spout frame port (`spout_handler.py`), and the
generation worker loop and prompt cache (`diffusion_engine.py`).
External collaborators (the diffusion model, the Spout transport, the
datagram server machinery) are modelled as oracles supplying the
outcomes of their calls; the repository's own control flow is
translated statement by statement.
-/

/-- An OSC message argument: the messages carry strings or integers. -/
inductive OscArg where
  | str (s : String)
  | int (n : Int)
deriving DecidableEq, Repr

/-- Shared control state, one field per global of `config.py`:
`current_prompt`, `current_negative_prompt`, `prompt_queue` (FIFO, head
is oldest), the six threading events, and the `verbose` level. -/
structure ControlState where
  currentPrompt : String
  currentNegativePrompt : String
  promptQueue : List (String × String)
  triggerEvent : Bool
  startEvent : Bool
  stopEvent : Bool
  spoutSendEvent : Bool
  spoutRestartEvent : Bool
  exitFlag : Bool
  verbose : Nat
deriving DecidableEq, Repr

/-- The initial global state of `config.py`: default prompts, empty
queue, all events clear, verbose level 1. -/
def initialControl : ControlState :=
  { currentPrompt := "abstract shape"
    currentNegativePrompt := "low quality, bad quality, blurry, low resolution"
    promptQueue := []
    triggerEvent := false
    startEvent := false
    stopEvent := false
    spoutSendEvent := false
    spoutRestartEvent := false
    exitFlag := false
    verbose := 1 }

/-- Python `str()` applied to an OSC argument. -/
def pyStr : OscArg → String
  | .str s => s
  | .int n => toString n

/-- Value of a list of decimal digit characters. -/
def digitsToNat (l : List Char) : Nat :=
  l.foldl (fun a c => a * 10 + (c.toNat - 48)) 0

/-- Whether a character list is a non-empty run of decimal digits. -/
def allDigits (l : List Char) : Bool :=
  !l.isEmpty && l.all (fun c => c.isDigit)

/-- Python `int(s)` on a string: an optional sign followed by at least
one decimal digit parses; anything else raises `ValueError`. -/
def pyParseInt (s : String) : Option Int :=
  match s.toList with
  | '-' :: rest => if allDigits rest then some (-(digitsToNat rest : Int)) else none
  | '+' :: rest => if allDigits rest then some (digitsToNat rest) else none
  | l => if allDigits l then some (digitsToNat l) else none

/-- Python `int()` applied to an OSC argument: an integer passes
through, a string is parsed and raises `ValueError` when it is not a
numeric literal. -/
def pyInt : OscArg → Except String Int
  | .int n => .ok n
  | .str s =>
      match pyParseInt s with
      | some n => .ok n
      | none => .error ("invalid literal for int() with base 10: " ++ s)

/-- `process_set_prompt` of `osc_server.py`: with at least one argument
set `current_prompt`, with at least two also set
`current_negative_prompt`, then always enqueue the pair
`(current_prompt, current_negative_prompt)` onto the queue. -/
def process_set_prompt (_address : String) (args : List OscArg) (s : ControlState) : ControlState :=
  let s1 := match args with
    | a :: _ => { s with currentPrompt := pyStr a }
    | [] => s
  let s2 := match args with
    | _ :: b :: _ => { s1 with currentNegativePrompt := pyStr b }
    | _ => s1
  { s2 with promptQueue := s2.promptQueue ++ [(s2.currentPrompt, s2.currentNegativePrompt)] }

/-- `process_trigger`: set the trigger event. -/
def process_trigger (_address : String) (_args : List OscArg) (s : ControlState) : ControlState :=
  { s with triggerEvent := true }

/-- `process_continuous_start`: set the start event. -/
def process_continuous_start (_address : String) (_args : List OscArg) (s : ControlState) : ControlState :=
  { s with startEvent := true }

/-- `process_continuous_stop`: set the stop event. -/
def process_continuous_stop (_address : String) (_args : List OscArg) (s : ControlState) : ControlState :=
  { s with stopEvent := true }

/-- `process_spout_start`: set the Spout-output event. -/
def process_spout_start (_address : String) (_args : List OscArg) (s : ControlState) : ControlState :=
  { s with spoutSendEvent := true }

/-- `process_spout_stop`: clear the Spout-output event. -/
def process_spout_stop (_address : String) (_args : List OscArg) (s : ControlState) : ControlState :=
  { s with spoutSendEvent := false }

/-- `process_verbose_set`: with an argument, convert it with `int()`
(which may raise), set the level when it is within 0..3, otherwise
report it invalid and leave the level unchanged; with no argument,
report the current level and change nothing. -/
def process_verbose_set (_address : String) (args : List OscArg) (s : ControlState) :
    Except String ControlState :=
  match args with
  | a :: _ =>
      match pyInt a with
      | .ok level =>
          if 0 ≤ level ∧ level ≤ 3 then .ok { s with verbose := level.toNat }
          else .ok s
      | .error e => .error e
  | [] => .ok s

/-- `process_verbose_toggle`: cycle the level modulo 4. -/
def process_verbose_toggle (_address : String) (_args : List OscArg) (s : ControlState) : ControlState :=
  { s with verbose := (s.verbose + 1) % 4 }

/-- `process_verbose_on`: level 2. -/
def process_verbose_on (_address : String) (_args : List OscArg) (s : ControlState) : ControlState :=
  { s with verbose := 2 }

/-- `process_verbose_off`: level 0. -/
def process_verbose_off (_address : String) (_args : List OscArg) (s : ControlState) : ControlState :=
  { s with verbose := 0 }

/-- `process_spout_restart`: set the port-restart event. -/
def process_spout_restart (_address : String) (_args : List OscArg) (s : ControlState) : ControlState :=
  { s with spoutRestartEvent := true }

/-- The dispatcher mappings installed by `start_osc_server`; an address
not mapped is ignored silently. The only handler that can raise is
`process_verbose_set`. -/
def dispatchMessage (addr : String) (args : List OscArg) (s : ControlState) :
    Except String ControlState :=
  if addr == "/prompt" then .ok (process_set_prompt addr args s)
  else if addr == "/trigger" || addr == "/t" then .ok (process_trigger addr args s)
  else if addr == "/start" || addr == "/s" then .ok (process_continuous_start addr args s)
  else if addr == "/stop" || addr == "/S" then .ok (process_continuous_stop addr args s)
  else if addr == "/p" then .ok (process_spout_start addr args s)
  else if addr == "/P" then .ok (process_spout_stop addr args s)
  else if addr == "/verbose" then process_verbose_set addr args s
  else if addr == "/v" then .ok (process_verbose_toggle addr args s)
  else if addr == "/von" then .ok (process_verbose_on addr args s)
  else if addr == "/voff" then .ok (process_verbose_off addr args s)
  else if addr == "/x" then .ok (process_spout_restart addr args s)
  else .ok s

/-- Modelled from the spec: the datagram-server request machinery that
delivers one message to the dispatcher is an external collaborator (the
Python `socketserver`/`python-osc` stack, not part of this repository).
Its documented behaviour is that an exception raised by a per-message
handler is caught inside `handle_request`, reported through
`handle_error`, and control returns to the caller; only failures of the
server machinery itself propagate to the caller. Accordingly a
dispatch error leaves the state unchanged and is returned as a logged
message. -/
def handle_request (addr : String) (args : List OscArg) (s : ControlState) :
    ControlState × Option String :=
  match dispatchMessage addr args s with
  | .ok s2 => (s2, none)
  | .error e => (s, some e)

/-- One observable event of the listener loop in `start_osc_server`:
either the bounded receive times out, or a message arrives, or the
server machinery itself fails. -/
inductive ListenerInput where
  | timeout
  | message (addr : String) (args : List OscArg)
  | serverFailure (e : String)
deriving DecidableEq, Repr

/-- One iteration of the listener loop of `start_osc_server`: a timeout
is swallowed and the loop continues; a message is handled through
`handle_request` and the loop continues; a failure of the server
machinery is printed and the loop breaks. The boolean is whether the
loop continues. -/
def listener_step (s : ControlState) : ListenerInput → ControlState × Bool
  | .timeout => (s, true)
  | .message addr args => ((handle_request addr args s).1, true)
  | .serverFailure _ => (s, false)

/-- The listener loop run over a list of inputs, checking the exit flag
before each receive as `start_osc_server` does. -/
def listener_run (s : ControlState) : List ListenerInput → ControlState
  | [] => s
  | i :: rest =>
      if s.exitFlag then s
      else
        let r := listener_step s i
        if r.2 then listener_run r.1 rest else r.1

/-- The cache key of `update_prompt_without_reset`:
`f"{new_prompt}||{new_negative_prompt}"`. -/
def cache_key (p np : String) : String := p ++ "||" ++ np

/-- Python `key in dict` membership for an insertion-ordered dictionary
represented as a list of entries, oldest first. -/
def dict_member (d : List (String × Nat)) (k : String) : Bool :=
  d.any (fun e => e.1 == k)

/-- Python `dict.pop(k)`: remove the entry with key `k` (the first
occurrence, keys being unique in a dictionary). -/
def dict_pop (d : List (String × Nat)) (k : String) : List (String × Nat) :=
  match d with
  | [] => []
  | e :: rest => if e.1 == k then rest else e :: dict_pop rest k

/-- Python `next(iter(dict))`: the first key in insertion order. -/
def dict_first_key : List (String × Nat) → Option String
  | [] => none
  | e :: _ => some e.1

/-- `update_prompt_without_reset` of `diffusion_engine.py`, restricted
to its effect on the prompt cache. A hit on `cache_key p np` reuses the
cached encoder output and leaves the cache unchanged; a miss encodes
(the abstract encoder output is `enc`), appends the entry, and when the
cache then exceeds 10 entries pops the oldest-inserted key. The
returned boolean is whether `encode_prompt` was invoked. -/
def update_prompt_without_reset (cache : List (String × Nat)) (p np : String) (enc : Nat) :
    List (String × Nat) × Bool :=
  let key := cache_key p np
  if dict_member cache key then (cache, false)
  else
    let c1 := cache ++ [(key, enc)]
    let c2 :=
      if c1.length > 10 then
        match dict_first_key c1 with
        | some k => dict_pop c1 k
        | none => c1
      else c1
    (c2, true)

/-- A received or generated frame: width, height and raw bytes. -/
structure Frame where
  width : Nat
  height : Nat
  bytes : List Nat
deriving DecidableEq, Repr

/-- The worker's private state across loop iterations: the shared
control state, the worker-owned prompt cache, and the frame counter. -/
structure WorkerState where
  ctrl : ControlState
  cache : List (String × Nat)
  frameCount : Nat
deriving DecidableEq, Repr

/-- The outcomes of the external calls one worker iteration makes: does
`restart()` raise, does the prompt encode raise (and the abstract
encoder output when it does not), does `receive_frame` raise and what
frame it yields otherwise, do the inference call and `send_frame`
raise. -/
structure IterEnv where
  restartFails : Bool
  promptUpdateFails : Bool
  encValue : Nat
  receiveFails : Bool
  frame : Option Frame
  inferFails : Bool
  sendFails : Bool
deriving DecidableEq, Repr

/-- Observable side effects of one worker iteration: receive attempts
on the inbound port, inference calls, sends on the outbound port, and
exceptions caught (and logged) inside the iteration. -/
structure IterTrace where
  receiveAttempts : Nat
  inferCalls : Nat
  sendCalls : Nat
  caughtErrors : Nat
deriving DecidableEq, Repr

/-- How one worker iteration ends: normally, or with an exception that
escaped the loop body. -/
inductive IterOutcome where
  | ok (s : WorkerState) (t : IterTrace)
  | raised (msg : String) (s : WorkerState) (t : IterTrace)
deriving DecidableEq, Repr

/-- Whether the iteration completed without an escaping exception. -/
def IterOutcome.isOk : IterOutcome → Bool
  | .ok _ _ => true
  | .raised _ _ _ => false

/-- The worker state when the iteration ended. -/
def IterOutcome.state : IterOutcome → WorkerState
  | .ok s _ => s
  | .raised _ s _ => s

/-- The side-effect trace of the iteration. -/
def IterOutcome.trace : IterOutcome → IterTrace
  | .ok _ t => t
  | .raised _ _ t => t

/-- Step 1 of the loop body of `start_diffusion_thread`: when the
restart event is set, restart both ports inside a `try` whose `except`
only logs; the event is cleared in both the success and the failure
branch, so the state effect is the same either way. -/
def stepRestart (s : WorkerState) : WorkerState :=
  if s.ctrl.spoutRestartEvent then
    { s with ctrl := { s.ctrl with spoutRestartEvent := false } }
  else s

/-- Step 2 of the loop body: `prompt_queue.get_nowait()` inside a `try`.
An empty queue raises `queue.Empty`, which is passed over. Otherwise the
head pair is consumed and `update_prompt_without_reset` is applied; when
the encode raises, the `except` branch logs and the cache is unchanged.
The returned number counts exceptions caught here. -/
def stepPrompt (s : WorkerState) (env : IterEnv) : WorkerState × Nat :=
  match s.ctrl.promptQueue with
  | [] => (s, 0)
  | (p, np) :: rest =>
      let s1 : WorkerState := { s with ctrl := { s.ctrl with promptQueue := rest } }
      if env.promptUpdateFails then (s1, 1)
      else ({ s1 with cache := (update_prompt_without_reset s1.cache p np env.encValue).1 }, 0)

/-- Step 3 of the loop body: a set stop event clears both the stop event
and the start event. -/
def stepStop (s : WorkerState) : WorkerState :=
  if s.ctrl.stopEvent then
    { s with ctrl := { s.ctrl with stopEvent := false, startEvent := false } }
  else s

/-- One full iteration of the worker loop of `start_diffusion_thread`
(lines 220-283): port restarts, prompt update, stop handling, then —
when the trigger or start event is set — one `receive_frame` attempt;
a received frame bumps the counter and, only when the Spout-output
event is set, is run through preprocessing + inference and sent; the
trigger event is cleared afterwards. `receive_frame`, the inference
call and `send_frame` are not inside any `try`, so an exception there
escapes the iteration (outcome `raised`) before the trigger is
cleared. -/
def workerIter (s0 : WorkerState) (env : IterEnv) : IterOutcome :=
  let s1 := stepRestart s0
  let restartCaught := if s0.ctrl.spoutRestartEvent && env.restartFails then 1 else 0
  let r2 := stepPrompt s1 env
  let s3 := stepStop r2.1
  let caught := restartCaught + r2.2
  if s3.ctrl.triggerEvent || s3.ctrl.startEvent then
    if env.receiveFails then
      .raised "receive_frame" s3
        { receiveAttempts := 1, inferCalls := 0, sendCalls := 0, caughtErrors := caught }
    else
      match env.frame with
      | some _f =>
          let s4 : WorkerState := { s3 with frameCount := s3.frameCount + 1 }
          if s4.ctrl.spoutSendEvent then
            if env.inferFails then
              .raised "inference" s4
                { receiveAttempts := 1, inferCalls := 0, sendCalls := 0, caughtErrors := caught }
            else if env.sendFails then
              .raised "send_frame" s4
                { receiveAttempts := 1, inferCalls := 1, sendCalls := 0, caughtErrors := caught }
            else
              .ok { s4 with ctrl := { s4.ctrl with triggerEvent := false } }
                { receiveAttempts := 1, inferCalls := 1, sendCalls := 1, caughtErrors := caught }
          else
            .ok { s4 with ctrl := { s4.ctrl with triggerEvent := false } }
              { receiveAttempts := 1, inferCalls := 0, sendCalls := 0, caughtErrors := caught }
      | none =>
          .ok { s3 with ctrl := { s3.ctrl with triggerEvent := false } }
            { receiveAttempts := 1, inferCalls := 0, sendCalls := 0, caughtErrors := caught }
  else
    .ok s3 { receiveAttempts := 0, inferCalls := 0, sendCalls := 0, caughtErrors := caught }

/-- How a run of the worker loop ends: the exit flag was observed, the
supply of iteration environments ran out with the loop still live, or
an exception escaped an iteration and terminated the worker. -/
inductive RunResult where
  | finished (s : WorkerState)
  | outOfInput (s : WorkerState)
  | crashed (msg : String) (s : WorkerState)
deriving DecidableEq, Repr

/-- Whether the run ended by an escaped exception. -/
def RunResult.isCrashed : RunResult → Bool
  | .crashed _ _ => true
  | _ => false

/-- The worker loop `while not config.exit_flag.is_set()` run over a
list of per-iteration environments. -/
def workerRun : WorkerState → List IterEnv → RunResult
  | s, [] => if s.ctrl.exitFlag then .finished s else .outOfInput s
  | s, e :: rest =>
      if s.ctrl.exitFlag then .finished s
      else
        match workerIter s e with
        | .ok s2 _ => workerRun s2 rest
        | .raised m s2 _ => .crashed m s2

/-- Observable ordered events of the startup section of
`start_diffusion_thread` (lines 164-219), before the loop. -/
inductive StartupEvent where
  | initService
  | prepareModel
  | openReceiver
  | openSender
  | warmupPass
  | setOutputEnabled
  | enterLoop
deriving DecidableEq, Repr

/-- The startup section in source order: `setup_stream_diffusion`, then
`stream.prepare`, then the `SpoutReceiver` and `SpoutSender`
constructors, then `batch_size - 1` warmup preprocessing passes followed
by 5 more, then `config.spout_send_event.set()`, then the loop is
entered. -/
def startup_trace (batchSize : Nat) : List StartupEvent :=
  [.initService, .prepareModel, .openReceiver, .openSender]
    ++ List.replicate (batchSize - 1) .warmupPass
    ++ List.replicate 5 .warmupPass
    ++ [.setOutputEnabled, .enterLoop]

/-- The warmup input of `start_diffusion_thread`:
`np.zeros((height, width, 3), dtype=np.uint8)`, an all-zero image of
shape height × width × 3. -/
def black_image (h w : Nat) : List (List (List Nat)) :=
  List.replicate h (List.replicate w (List.replicate 3 0))

/-- The last control-state mutation of the startup section (line 218):
`config.spout_send_event.set()`, executed unconditionally immediately
before the loop. -/
def startup_enable_output (s : ControlState) : ControlState :=
  { s with spoutSendEvent := true }

/-- The per-call state of `SpoutReceiver` of `spout_handler.py`: the
connection name, the negotiated width and height, and the internal
transfer buffer (`None` until first allocated). -/
structure SpoutReceiverState where
  name : String
  width : Nat
  height : Nat
  buffer : Option (List Nat)
deriving DecidableEq, Repr

/-- The behaviour of the opaque Spout transport during one
`receive_frame` call: the result of the first `receiveImage`, the
`isUpdated`/`isFrameNew` signals, the sender's advertised dimensions,
the result of a second `receiveImage` were one made, and the frame
bytes a successful `receiveImage` writes into a buffer of matching
size. -/
structure SpoutEnv where
  firstResult : Bool
  isUpdated : Bool
  isFrameNew : Bool
  senderWidth : Nat
  senderHeight : Nat
  secondResult : Bool
  pixels : List Nat
deriving DecidableEq, Repr

/-- A successful `receiveImage` fills the caller's buffer with the
sender's bytes when the sizes agree and leaves it untouched
otherwise. -/
def writeBytes (buf : List Nat) (pixels : List Nat) : List Nat :=
  if pixels.length == buf.length then pixels else buf

/-- Python truthiness of `self.buffer`: `None` and an empty array are
falsy. -/
def bufferTruthy : Option (List Nat) → Bool
  | none => false
  | some b => !b.isEmpty

/-- `SpoutGL.helpers.isBufferEmpty`: every byte is zero. -/
def spoutIsBufferEmpty (b : List Nat) : Bool := b.all (fun x => x == 0)

/-- `SpoutReceiver.receive_frame` of `spout_handler.py`: one
`receiveImage` into the current buffer; if `isUpdated` and `isFrameNew`,
adopt the sender's width/height, allocate a fresh zeroed buffer of
width*height*4 bytes, and — only if the first result was truthy — issue
a second `receiveImage` into the fresh buffer and use its result;
finally return a frame of the current negotiated size when the buffer
is truthy, the result truthy and the buffer not all-zero, else
`None`. -/
def receive_frame (r : SpoutReceiverState) (env : SpoutEnv) :
    SpoutReceiverState × Option Frame :=
  let result := env.firstResult
  let buf1 : Option (List Nat) :=
    match r.buffer with
    | none => none
    | some b => some (if result then writeBytes b env.pixels else b)
  let step2 : SpoutReceiverState × Bool :=
    if env.isUpdated && env.isFrameNew then
      let w := env.senderWidth
      let h := env.senderHeight
      let fresh : List Nat := List.replicate (w * h * 4) 0
      let fresh2 := if result then (if env.secondResult then writeBytes fresh env.pixels else fresh) else fresh
      ({ r with width := w, height := h, buffer := some fresh2 },
       if result then env.secondResult else result)
    else ({ r with buffer := buf1 }, result)
  let r2 := step2.1
  let result2 := step2.2
  if bufferTruthy r2.buffer && result2 && !(spoutIsBufferEmpty (r2.buffer.getD [])) then
    (r2, some { width := r2.width, height := r2.height, bytes := r2.buffer.getD [] })
  else (r2, none)

lemma stepRestart_trigger (s : WorkerState) :
    (stepRestart s).ctrl.triggerEvent = s.ctrl.triggerEvent := by
  unfold stepRestart; split <;> rfl

lemma stepRestart_start (s : WorkerState) :
    (stepRestart s).ctrl.startEvent = s.ctrl.startEvent := by
  unfold stepRestart; split <;> rfl

lemma stepRestart_stop (s : WorkerState) :
    (stepRestart s).ctrl.stopEvent = s.ctrl.stopEvent := by
  unfold stepRestart; split <;> rfl

lemma stepRestart_send (s : WorkerState) :
    (stepRestart s).ctrl.spoutSendEvent = s.ctrl.spoutSendEvent := by
  unfold stepRestart; split <;> rfl

lemma stepPrompt_trigger (s : WorkerState) (env : IterEnv) :
    (stepPrompt s env).1.ctrl.triggerEvent = s.ctrl.triggerEvent := by
  unfold stepPrompt
  rcases hq : s.ctrl.promptQueue with _ | ⟨⟨p, np⟩, rest⟩ <;> simp [hq] <;> split <;> rfl

lemma stepPrompt_start (s : WorkerState) (env : IterEnv) :
    (stepPrompt s env).1.ctrl.startEvent = s.ctrl.startEvent := by
  unfold stepPrompt
  rcases hq : s.ctrl.promptQueue with _ | ⟨⟨p, np⟩, rest⟩ <;> simp [hq] <;> split <;> rfl

lemma stepPrompt_stop (s : WorkerState) (env : IterEnv) :
    (stepPrompt s env).1.ctrl.stopEvent = s.ctrl.stopEvent := by
  unfold stepPrompt
  rcases hq : s.ctrl.promptQueue with _ | ⟨⟨p, np⟩, rest⟩ <;> simp [hq] <;> split <;> rfl

lemma stepPrompt_send (s : WorkerState) (env : IterEnv) :
    (stepPrompt s env).1.ctrl.spoutSendEvent = s.ctrl.spoutSendEvent := by
  unfold stepPrompt
  rcases hq : s.ctrl.promptQueue with _ | ⟨⟨p, np⟩, rest⟩ <;> simp [hq] <;> split <;> rfl

lemma stepStop_of_set (s : WorkerState) (h : s.ctrl.stopEvent = true) :
    (stepStop s).ctrl.stopEvent = false ∧ (stepStop s).ctrl.startEvent = false := by
  unfold stepStop; simp [h]

lemma stepStop_trigger (s : WorkerState) :
    (stepStop s).ctrl.triggerEvent = s.ctrl.triggerEvent := by
  unfold stepStop; split <;> rfl

lemma stepStop_send (s : WorkerState) :
    (stepStop s).ctrl.spoutSendEvent = s.ctrl.spoutSendEvent := by
  unfold stepStop; split <;> rfl

lemma stepStop_of_clear (s : WorkerState) (h : s.ctrl.stopEvent = false) :
    stepStop s = s := by
  unfold stepStop; simp [h]

lemma workerIter_state_stop (s : WorkerState) (env : IterEnv) :
    (workerIter s env).state.ctrl.stopEvent
      = (stepStop (stepPrompt (stepRestart s) env).1).ctrl.stopEvent := by
  unfold workerIter
  dsimp only
  repeat' split
  all_goals rfl

lemma workerIter_state_start (s : WorkerState) (env : IterEnv) :
    (workerIter s env).state.ctrl.startEvent
      = (stepStop (stepPrompt (stepRestart s) env).1).ctrl.startEvent := by
  unfold workerIter
  dsimp only
  repeat' split
  all_goals rfl

/-- C6: in every worker iteration, if stopRequested is set when the
worker checks it, the worker clears both stopRequested and
continuousRunning within that same iteration, so that by the next
iteration boundary neither flag is set (lines 258-260 of
`diffusion_engine.py`, which clear `stop_event` and `start_event`
together; no later statement of the iteration writes either flag). -/
theorem stop_clears_both_flags (s : WorkerState) (env : IterEnv)
    (h : s.ctrl.stopEvent = true) :
    (workerIter s env).state.ctrl.stopEvent = false
    ∧ (workerIter s env).state.ctrl.startEvent = false := by
  have hs : (stepPrompt (stepRestart s) env).1.ctrl.stopEvent = true := by
    rw [stepPrompt_stop, stepRestart_stop]; exact h
  obtain ⟨h1, h2⟩ := stepStop_of_set _ hs
  rw [workerIter_state_stop, workerIter_state_start]
  exact ⟨h1, h2⟩

/-- Witness for `stop_clears_both_flags` at a concrete state with both
the stop and start events set and a frame available. -/
theorem stop_clears_both_flags_witness :
    (workerIter
        { ctrl := { initialControl with startEvent := true, stopEvent := true }
          cache := [], frameCount := 0 }
        { restartFails := false, promptUpdateFails := false, encValue := 0
          receiveFails := false
          frame := some { width := 2, height := 2, bytes := List.replicate 16 5 }
          inferFails := false, sendFails := false }).state.ctrl.stopEvent = false
    ∧ (workerIter
        { ctrl := { initialControl with startEvent := true, stopEvent := true }
          cache := [], frameCount := 0 }
        { restartFails := false, promptUpdateFails := false, encValue := 0
          receiveFails := false
          frame := some { width := 2, height := 2, bytes := List.replicate 16 5 }
          inferFails := false, sendFails := false }).state.ctrl.startEvent = false :=
  stop_clears_both_flags _ _ (by rfl)

lemma stepRestart_frameCount (s : WorkerState) :
    (stepRestart s).frameCount = s.frameCount := by
  unfold stepRestart; split <;> rfl

lemma stepPrompt_frameCount (s : WorkerState) (env : IterEnv) :
    (stepPrompt s env).1.frameCount = s.frameCount := by
  unfold stepPrompt
  rcases hq : s.ctrl.promptQueue with _ | ⟨⟨p, np⟩, rest⟩ <;> simp [hq] <;> split <;> rfl

lemma stepStop_frameCount (s : WorkerState) :
    (stepStop s).frameCount = s.frameCount := by
  unfold stepStop; split <;> rfl

/-- C7: a worker iteration entered with the trigger event set and the
start event clear makes exactly one receive attempt, performs at most
one inference, leaves the frame counter raised by at most one, and ends
with the trigger event clear whether or not a frame was available
(lines 263-283 of `diffusion_engine.py`: one `receive_frame` call, one
conditional inference, then `config.trigger_event.clear()`). The
receive, inference and send calls are assumed not to raise. -/
theorem trigger_one_shot (s : WorkerState) (env : IterEnv)
    (htrig : s.ctrl.triggerEvent = true) (hstart : s.ctrl.startEvent = false)
    (h1 : env.receiveFails = false) (h2 : env.inferFails = false)
    (h3 : env.sendFails = false) :
    (workerIter s env).isOk = true
    ∧ (workerIter s env).trace.receiveAttempts = 1
    ∧ (workerIter s env).trace.inferCalls ≤ 1
    ∧ (workerIter s env).state.ctrl.triggerEvent = false
    ∧ (workerIter s env).state.frameCount ≤ s.frameCount + 1 := by
  have ht3 : (stepStop (stepPrompt (stepRestart s) env).1).ctrl.triggerEvent = true := by
    rw [stepStop_trigger, stepPrompt_trigger, stepRestart_trigger]; exact htrig
  have hfc : (stepStop (stepPrompt (stepRestart s) env).1).frameCount = s.frameCount := by
    rw [stepStop_frameCount, stepPrompt_frameCount, stepRestart_frameCount]
  unfold workerIter
  dsimp only
  rw [ht3, h1]
  cases hf : env.frame with
  | none =>
      simp only [Bool.true_or, if_true, Bool.false_eq_true, if_false]
      exact ⟨rfl, rfl, by simp [IterOutcome.trace], rfl, by simp [IterOutcome.state, hfc]⟩
  | some f =>
      simp only [Bool.true_or, if_true, Bool.false_eq_true, if_false]
      cases hsend : (stepStop (stepPrompt (stepRestart s) env).1).ctrl.spoutSendEvent with
      | false =>
          simp only [hsend, Bool.false_eq_true, if_false]
          exact ⟨rfl, rfl, by simp [IterOutcome.trace], rfl, by simp [IterOutcome.state, hfc]⟩
      | true =>
          simp only [hsend, if_true, h2, h3, Bool.false_eq_true, if_false]
          exact ⟨rfl, rfl, by simp [IterOutcome.trace], rfl, by simp [IterOutcome.state, hfc]⟩

/-- Witness for `trigger_one_shot`: trigger set, start clear, a 2x2
frame available, no external failures. -/
theorem trigger_one_shot_witness :
    (workerIter
        { ctrl := { initialControl with triggerEvent := true }, cache := [], frameCount := 0 }
        { restartFails := false, promptUpdateFails := false, encValue := 0
          receiveFails := false
          frame := some { width := 2, height := 2, bytes := List.replicate 16 5 }
          inferFails := false, sendFails := false }).isOk = true
    ∧ (workerIter
        { ctrl := { initialControl with triggerEvent := true }, cache := [], frameCount := 0 }
        { restartFails := false, promptUpdateFails := false, encValue := 0
          receiveFails := false
          frame := some { width := 2, height := 2, bytes := List.replicate 16 5 }
          inferFails := false, sendFails := false }).trace.receiveAttempts = 1
    ∧ (workerIter
        { ctrl := { initialControl with triggerEvent := true }, cache := [], frameCount := 0 }
        { restartFails := false, promptUpdateFails := false, encValue := 0
          receiveFails := false
          frame := some { width := 2, height := 2, bytes := List.replicate 16 5 }
          inferFails := false, sendFails := false }).trace.inferCalls ≤ 1
    ∧ (workerIter
        { ctrl := { initialControl with triggerEvent := true }, cache := [], frameCount := 0 }
        { restartFails := false, promptUpdateFails := false, encValue := 0
          receiveFails := false
          frame := some { width := 2, height := 2, bytes := List.replicate 16 5 }
          inferFails := false, sendFails := false }).state.ctrl.triggerEvent = false
    ∧ (workerIter
        { ctrl := { initialControl with triggerEvent := true }, cache := [], frameCount := 0 }
        { restartFails := false, promptUpdateFails := false, encValue := 0
          receiveFails := false
          frame := some { width := 2, height := 2, bytes := List.replicate 16 5 }
          inferFails := false, sendFails := false }).state.frameCount ≤ 0 + 1 :=
  trigger_one_shot _ _ (by rfl) (by rfl) (by rfl) (by rfl) (by rfl)

/-- A worker state with only the trigger event set, used to evaluate
single iterations concretely. -/
def trigState : WorkerState :=
  { ctrl := { initialControl with triggerEvent := true }, cache := [], frameCount := 0 }

/-- A benign iteration environment: a 2x2 frame is available and none
of the external calls raise. -/
def quietEnv : IterEnv :=
  { restartFails := false, promptUpdateFails := false, encValue := 0
    receiveFails := false
    frame := some { width := 2, height := 2, bytes := List.replicate 16 5 }
    inferFails := false, sendFails := false }

/-- Counterexample to C1: an iteration entered with the trigger event
set whose inbound port returns a frame, but with the Spout-output event
clear, performs zero inference calls — in lines 274-276 of
`diffusion_engine.py` the inference call itself sits inside
`if config.spout_send_event.is_set():`, so inference is not performed
when output is disabled, contrary to the claim. -/
theorem output_disabled_skips_inference_cex :
    trigState.ctrl.triggerEvent = true
    ∧ trigState.ctrl.spoutSendEvent = false
    ∧ quietEnv.frame.isSome = true
    ∧ (workerIter trigState quietEnv).isOk = true
    ∧ (workerIter trigState quietEnv).trace.receiveAttempts = 1
    ∧ (workerIter trigState quietEnv).trace.inferCalls = 0
    ∧ (workerIter trigState quietEnv).trace.sendCalls = 0 := by
  decide

/-- C1 (amended): for every worker iteration in which the trigger or
start event is set (stop event clear) and the inbound port returns a
frame, preprocessing + inference and the outbound send are performed if
and only if the Spout-output event is set: one receive, and — exactly
when `outputEnabled` — one inference and one send; with it clear,
neither inference nor send happens. -/
theorem output_gates_inference_and_send (s : WorkerState) (env : IterEnv) (f : Frame)
    (hstop : s.ctrl.stopEvent = false)
    (hgo : (s.ctrl.triggerEvent || s.ctrl.startEvent) = true)
    (hframe : env.frame = some f)
    (h1 : env.receiveFails = false) (h2 : env.inferFails = false)
    (h3 : env.sendFails = false) :
    (workerIter s env).isOk = true
    ∧ (workerIter s env).trace.receiveAttempts = 1
    ∧ (workerIter s env).trace.inferCalls = (if s.ctrl.spoutSendEvent then 1 else 0)
    ∧ (workerIter s env).trace.sendCalls = (if s.ctrl.spoutSendEvent then 1 else 0)
    ∧ (workerIter s env).state.frameCount = s.frameCount + 1 := by
  have hstop3 : (stepPrompt (stepRestart s) env).1.ctrl.stopEvent = false := by
    rw [stepPrompt_stop, stepRestart_stop]; exact hstop
  have hid : stepStop (stepPrompt (stepRestart s) env).1 = (stepPrompt (stepRestart s) env).1 :=
    stepStop_of_clear _ hstop3
  have hgo3 : ((stepStop (stepPrompt (stepRestart s) env).1).ctrl.triggerEvent
      || (stepStop (stepPrompt (stepRestart s) env).1).ctrl.startEvent) = true := by
    rw [hid, stepPrompt_trigger, stepPrompt_start, stepRestart_trigger, stepRestart_start]
    exact hgo
  have hsend3 : (stepStop (stepPrompt (stepRestart s) env).1).ctrl.spoutSendEvent
      = s.ctrl.spoutSendEvent := by
    rw [stepStop_send, stepPrompt_send, stepRestart_send]
  have hfc : (stepStop (stepPrompt (stepRestart s) env).1).frameCount = s.frameCount := by
    rw [stepStop_frameCount, stepPrompt_frameCount, stepRestart_frameCount]
  unfold workerIter
  dsimp only
  rw [hgo3, h1, hframe]
  cases hsend : s.ctrl.spoutSendEvent with
  | false =>
      rw [hsend] at hsend3
      simp only [if_true, hsend3, Bool.false_eq_true, if_false]
      exact ⟨rfl, rfl, by simp [IterOutcome.trace], by simp [IterOutcome.trace],
        by simp [IterOutcome.state, hfc]⟩
  | true =>
      rw [hsend] at hsend3
      simp only [if_true, hsend3, h2, h3, Bool.false_eq_true, if_false]
      exact ⟨rfl, rfl, by simp [IterOutcome.trace], by simp [IterOutcome.trace],
        by simp [IterOutcome.state, hfc]⟩

/-- Witness for `output_gates_inference_and_send` matching end-to-end
scenario 2: start plus trigger, output enabled, frame available — one
receive, one inference, one send. -/
theorem output_gates_inference_and_send_witness :
    (workerIter { trigState with ctrl := { trigState.ctrl with spoutSendEvent := true } }
        quietEnv).isOk = true
    ∧ (workerIter { trigState with ctrl := { trigState.ctrl with spoutSendEvent := true } }
        quietEnv).trace.receiveAttempts = 1
    ∧ (workerIter { trigState with ctrl := { trigState.ctrl with spoutSendEvent := true } }
        quietEnv).trace.inferCalls
        = (if ({ trigState with ctrl := { trigState.ctrl with spoutSendEvent := true } }
            : WorkerState).ctrl.spoutSendEvent then 1 else 0)
    ∧ (workerIter { trigState with ctrl := { trigState.ctrl with spoutSendEvent := true } }
        quietEnv).trace.sendCalls
        = (if ({ trigState with ctrl := { trigState.ctrl with spoutSendEvent := true } }
            : WorkerState).ctrl.spoutSendEvent then 1 else 0)
    ∧ (workerIter { trigState with ctrl := { trigState.ctrl with spoutSendEvent := true } }
        quietEnv).state.frameCount
        = ({ trigState with ctrl := { trigState.ctrl with spoutSendEvent := true } }
            : WorkerState).frameCount + 1 :=
  output_gates_inference_and_send _ _
    { width := 2, height := 2, bytes := List.replicate 16 5 }
    (by rfl) (by rfl) (by rfl) (by rfl) (by rfl) (by rfl)

lemma workerIter_isOk_of_no_fatal (s : WorkerState) (env : IterEnv)
    (h1 : env.receiveFails = false) (h2 : env.inferFails = false)
    (h3 : env.sendFails = false) :
    (workerIter s env).isOk = true := by
  simp only [workerIter, h1, h2, h3, Bool.false_eq_true, if_false]
  repeat' split
  all_goals rfl

lemma workerRun_no_crash (s : WorkerState) (envs : List IterEnv)
    (hall : ∀ e ∈ envs,
      e.receiveFails = false ∧ e.inferFails = false ∧ e.sendFails = false) :
    (workerRun s envs).isCrashed = false := by
  induction envs generalizing s with
  | nil =>
      unfold workerRun; split
      all_goals rfl
  | cons e rest ih =>
      unfold workerRun
      split
      · rfl
      · have h := hall e (List.mem_cons_self e rest)
        have hok := workerIter_isOk_of_no_fatal s e h.1 h.2.1 h.2.2
        cases hiter : workerIter s e with
        | ok s2 t =>
            simp only [hiter]
            exact ih s2 (fun x hx => hall x (List.mem_cons_of_mem _ hx))
        | raised m s2 t =>
            rw [hiter] at hok
            simp [IterOutcome.isOk] at hok

/-- A worker state exercising all three caught-error paths at once:
restart requested, a pending prompt update, and the trigger set. -/
def busyState : WorkerState :=
  { ctrl := { initialControl with
      triggerEvent := true, spoutRestartEvent := true, spoutSendEvent := true
      promptQueue := [("a cat", "blurry")] }
    cache := [], frameCount := 0 }

/-- An environment in which the port restart and the prompt encode both
raise, but receive, inference and send do not. -/
def faultyRestartEnv : IterEnv :=
  { restartFails := true, promptUpdateFails := true, encValue := 0
    receiveFails := false
    frame := some { width := 2, height := 2, bytes := List.replicate 16 5 }
    inferFails := false, sendFails := false }

/-- Counterexample to C2: an iteration whose `receive_frame` call raises
does not catch the error — `receive_frame`, the inference call and
`send_frame` (lines 263-276 of `diffusion_engine.py`) are outside every
`try`, so the exception escapes the iteration and terminates the worker
loop, contrary to the claim that any error in an iteration is caught
within it. -/
theorem receive_error_escapes_iteration_cex :
    trigState.ctrl.triggerEvent = true
    ∧ (workerIter trigState { quietEnv with receiveFails := true }).isOk = false
    ∧ (workerRun trigState [{ quietEnv with receiveFails := true }]).isCrashed = true := by
  decide

/-- C2 (amended): port-restart failures and prompt-update/encode
failures inside a worker iteration are caught and logged within that
iteration; provided the frame receive, inference and outbound send do
not raise, every iteration completes normally and the worker loop
proceeds until the exit flag is observed — but a receive, inference or
send failure is not caught (see the counterexample). -/
theorem nonfatal_errors_confined_to_iteration (s : WorkerState) (env : IterEnv)
    (envs : List IterEnv)
    (henv1 : env.receiveFails = false) (henv2 : env.inferFails = false)
    (henv3 : env.sendFails = false)
    (hall : ∀ e ∈ envs,
      e.receiveFails = false ∧ e.inferFails = false ∧ e.sendFails = false) :
    (workerIter s env).isOk = true ∧ (workerRun s envs).isCrashed = false :=
  ⟨workerIter_isOk_of_no_fatal s env henv1 henv2 henv3,
   workerRun_no_crash s envs hall⟩

/-- Witness for `nonfatal_errors_confined_to_iteration`: restart and
prompt-encode both raise, yet the iteration and a one-iteration run
complete. -/
theorem nonfatal_errors_confined_to_iteration_witness :
    (workerIter busyState faultyRestartEnv).isOk = true
    ∧ (workerRun busyState [faultyRestartEnv]).isCrashed = false :=
  nonfatal_errors_confined_to_iteration busyState faultyRestartEnv [faultyRestartEnv]
    (by rfl) (by rfl) (by rfl)
    (by
      intro e he
      rw [List.mem_singleton] at he
      subst he
      exact ⟨rfl, rfl, rfl⟩)

lemma dict_member_append_self (l : List (String × Nat)) (k : String) (v : Nat) :
    dict_member (l ++ [(k, v)]) k = true := by
  simp [dict_member, List.any_append]

lemma dict_pop_cons_self (e : String × Nat) (rest : List (String × Nat)) :
    dict_pop (e :: rest) e.1 = rest := by
  simp [dict_pop]

lemma update_hit (cache : List (String × Nat)) (p np : String) (enc : Nat)
    (h : dict_member cache (cache_key p np) = true) :
    update_prompt_without_reset cache p np enc = (cache, false) := by
  simp [update_prompt_without_reset, h]

lemma update_mem (cache : List (String × Nat)) (p np : String) (enc : Nat) :
    dict_member (update_prompt_without_reset cache p np enc).1 (cache_key p np) = true := by
  unfold update_prompt_without_reset
  by_cases h : dict_member cache (cache_key p np) = true
  · simp [h]
  · rw [Bool.not_eq_true] at h
    simp only [h, Bool.false_eq_true, if_false]
    cases cache with
    | nil => simp [dict_member]
    | cons e rest =>
        split
        · simp [dict_first_key, dict_pop, dict_member, List.any_append]
        · simp [dict_member, List.any_append]

lemma update_miss_full (cache : List (String × Nat)) (p np : String) (enc : Nat)
    (h10 : cache.length = 10)
    (hmiss : dict_member cache (cache_key p np) = false) :
    (update_prompt_without_reset cache p np enc).1
      = cache.tail ++ [(cache_key p np, enc)] := by
  unfold update_prompt_without_reset
  simp only [hmiss, Bool.false_eq_true, if_false]
  cases cache with
  | nil => simp at h10
  | cons e rest =>
      simp only [List.length_cons] at h10
      split
      · simp [dict_first_key, dict_pop]
      · rename_i hcond
        exfalso
        apply hcond
        simp [List.length_append]
        omega

lemma update_length (cache : List (String × Nat)) (p np : String) (enc : Nat)
    (h : cache.length ≤ 10) :
    (update_prompt_without_reset cache p np enc).1.length ≤ 10 := by
  unfold update_prompt_without_reset
  by_cases hm : dict_member cache (cache_key p np) = true
  · simp [hm, h]
  · rw [Bool.not_eq_true] at hm
    simp only [hm, Bool.false_eq_true, if_false]
    cases cache with
    | nil => simp
    | cons e rest =>
        simp only [List.length_cons] at h
        split
        · rename_i hcond
          simp [List.length_append] at hcond
          simp [dict_first_key, dict_pop, List.length_append]
          omega
        · rename_i hcond
          simp [List.length_append] at hcond ⊢
          omega

/-- C3: applying the same (prompt, negativePrompt) key twice in a row
makes the second application a cache hit that neither re-encodes nor
changes the cache; a cache of at most 10 entries stays at most 10
entries; and inserting a fresh key into a full cache of 10 evicts
exactly the oldest-inserted entry (the head of the insertion-ordered
dictionary), per `update_prompt_without_reset` of
`diffusion_engine.py` (lines 94-119). -/
theorem prompt_cache_idempotent_bounded_fifo
    (cache cache10 : List (String × Nat)) (p np p2 np2 : String) (enc enc2 e2 : Nat)
    (hlen : cache.length ≤ 10)
    (h10 : cache10.length = 10)
    (hmiss : dict_member cache10 (cache_key p2 np2) = false) :
    update_prompt_without_reset (update_prompt_without_reset cache p np enc).1 p np enc2
      = ((update_prompt_without_reset cache p np enc).1, false)
    ∧ (update_prompt_without_reset cache p np enc).1.length ≤ 10
    ∧ (update_prompt_without_reset cache10 p2 np2 e2).1
        = cache10.tail ++ [(cache_key p2 np2, e2)] :=
  ⟨update_hit _ p np enc2 (update_mem cache p np enc),
   update_length cache p np enc hlen,
   update_miss_full cache10 p2 np2 e2 h10 hmiss⟩

/-- A concrete full cache of 10 distinct keys, oldest first. -/
def tenEntryCache : List (String × Nat) :=
  [("k0||n", 0), ("k1||n", 1), ("k2||n", 2), ("k3||n", 3), ("k4||n", 4),
   ("k5||n", 5), ("k6||n", 6), ("k7||n", 7), ("k8||n", 8), ("k9||n", 9)]

/-- Witness for `prompt_cache_idempotent_bounded_fifo`: the empty cache
for the idempotence and bound parts, and the concrete 10-entry cache
with the fresh key "new||n" for the eviction part. -/
theorem prompt_cache_idempotent_bounded_fifo_witness :
    update_prompt_without_reset (update_prompt_without_reset [] "a cat" "blurry" 7).1
        "a cat" "blurry" 8
      = ((update_prompt_without_reset [] "a cat" "blurry" 7).1, false)
    ∧ (update_prompt_without_reset [] "a cat" "blurry" 7).1.length ≤ 10
    ∧ (update_prompt_without_reset tenEntryCache "new" "n" 10).1
        = tenEntryCache.tail ++ [(cache_key "new" "n", 10)] :=
  prompt_cache_idempotent_bounded_fifo [] tenEntryCache "a cat" "blurry" "new" "n" 7 8 10
    (by decide) (by decide) (by decide)

/-- C4: a command message whose per-message handling fails to decode
(for example a non-numeric argument to `/verbose`, where `int()`
raises in `process_verbose_set`) leaves the state unchanged, is
reported as a logged error, and the listener loop continues to the
following messages — the loop's `break` branch (line 203 of
`osc_server.py`) is reached only by failures of the server machinery
itself, not by per-message handler errors, which the datagram server
confines (see `handle_request`). -/
theorem malformed_message_not_fatal (s : ControlState) (addr : String)
    (args : List OscArg) (e : String) (rest : List ListenerInput)
    (hexit : s.exitFlag = false)
    (herr : dispatchMessage addr args s = .error e) :
    (listener_step s (.message addr args)).2 = true
    ∧ (listener_step s (.message addr args)).1 = s
    ∧ (handle_request addr args s).2 = some e
    ∧ listener_run s (ListenerInput.message addr args :: rest) = listener_run s rest := by
  have hreq : handle_request addr args s = (s, some e) := by
    unfold handle_request
    rw [herr]
  refine ⟨rfl, ?_, ?_, ?_⟩
  · simp [listener_step, hreq]
  · rw [hreq]
  · conv_lhs => rw [listener_run]
    simp [hexit, listener_step, hreq]

/-- Witness for `malformed_message_not_fatal`: the message
`/verbose "abc"` against the initial state, followed by a `/t`
message. -/
theorem malformed_message_not_fatal_witness :
    (listener_step initialControl (.message "/verbose" [OscArg.str "abc"])).2 = true
    ∧ (listener_step initialControl (.message "/verbose" [OscArg.str "abc"])).1
        = initialControl
    ∧ (handle_request "/verbose" [OscArg.str "abc"] initialControl).2
        = some "invalid literal for int() with base 10: abc"
    ∧ listener_run initialControl
        (ListenerInput.message "/verbose" [OscArg.str "abc"]
          :: [ListenerInput.message "/t" []])
        = listener_run initialControl [ListenerInput.message "/t" []] :=
  malformed_message_not_fatal initialControl "/verbose" [OscArg.str "abc"]
    "invalid literal for int() with base 10: abc" [ListenerInput.message "/t" []]
    (by rfl) (by rfl)

/-- C9: the worker unconditionally sets the Spout-output event
immediately before entering its loop (line 218 of
`diffusion_engine.py`), so output is enabled at loop entry for every
prior state — in particular an `outputOff` (`/P`) handled during
startup is overridden — and in the startup order this set is the last
event before the loop. -/
theorem output_enabled_at_loop_entry (s : ControlState) (addr : String)
    (args : List OscArg) (b : Nat) :
    (startup_enable_output s).spoutSendEvent = true
    ∧ (startup_enable_output (process_spout_stop addr args s)).spoutSendEvent = true
    ∧ ∃ l, startup_trace b = l ++ [StartupEvent.setOutputEnabled, StartupEvent.enterLoop] := by
  refine ⟨rfl, rfl, ?_⟩
  refine ⟨[.initService, .prepareModel, .openReceiver, .openSender]
    ++ List.replicate (b - 1) .warmupPass ++ List.replicate 5 .warmupPass, ?_⟩
  simp [startup_trace]

/-- C10: every `/prompt` message enqueues exactly one
(prompt, negativePrompt) pair — the pair formed from the state after
the argument updates — and a `/prompt` with zero arguments enqueues
precisely the unchanged current prompt and current negative prompt
(`process_set_prompt` of `osc_server.py`, lines 10-30: the enqueue is
outside both `if len(args)` guards). -/
theorem bare_prompt_reenqueues_current (s : ControlState) (args : List OscArg) :
    (process_set_prompt "/prompt" args s).promptQueue
      = s.promptQueue
        ++ [((process_set_prompt "/prompt" args s).currentPrompt,
             (process_set_prompt "/prompt" args s).currentNegativePrompt)]
    ∧ (process_set_prompt "/prompt" args s).promptQueue.length
        = s.promptQueue.length + 1
    ∧ process_set_prompt "/prompt" [] s
        = { s with promptQueue :=
              s.promptQueue ++ [(s.currentPrompt, s.currentNegativePrompt)] } := by
  refine ⟨?_, ?_, rfl⟩
  · rcases args with _ | ⟨a, _ | ⟨c, args⟩⟩ <;> rfl
  · rcases args with _ | ⟨a, _ | ⟨c, args⟩⟩ <;> simp [process_set_prompt]

/-- Counterexample to C5: in the startup sequence of
`start_diffusion_thread` the Spout ports are opened (lines 190-191)
before the warmup passes run (lines 200-206), so the claim that the
ports are opened only after the warmup passes is false — at batch size
1 the first port-open event precedes the first warmup event. -/
theorem ports_open_before_warmup_cex :
    (startup_trace 1).contains StartupEvent.warmupPass = true
    ∧ (startup_trace 1).contains StartupEvent.openReceiver = true
    ∧ (startup_trace 1).findIdx (fun e => e == StartupEvent.openReceiver)
        < (startup_trace 1).findIdx (fun e => e == StartupEvent.warmupPass)
    ∧ (startup_trace 1).findIdx (fun e => e == StartupEvent.openSender)
        < (startup_trace 1).findIdx (fun e => e == StartupEvent.warmupPass) := by
  decide

/-- C5 (amended): the worker's startup order is: initialize the
generation service with the requested model/configuration, prepare the
initial prompt, then open the inbound and outbound frame ports, and
only then run the fixed warmup passes (`batch_size - 1` plus 5) on the
synthetic all-zero image sized to the target resolution, before
enabling output and entering the loop — the ports are opened before
the warmup passes, not after them. -/
theorem startup_order_ports_then_warmup (b h w : Nat) :
    startup_trace b
      = [StartupEvent.initService, StartupEvent.prepareModel,
         StartupEvent.openReceiver, StartupEvent.openSender]
        ++ List.replicate (b - 1 + 5) StartupEvent.warmupPass
        ++ [StartupEvent.setOutputEnabled, StartupEvent.enterLoop]
    ∧ ∀ row ∈ black_image h w, ∀ px ∈ row, ∀ c ∈ px, c = 0 := by
  constructor
  · simp [startup_trace, List.replicate_add, List.append_assoc]
  · intro row hrow px hpx c hc
    rw [List.eq_of_mem_replicate hrow] at hpx
    rw [List.eq_of_mem_replicate hpx] at hc
    exact List.eq_of_mem_replicate hc

lemma writeBytes_length (b p : List Nat) : (writeBytes b p).length = b.length := by
  unfold writeBytes
  split
  · rename_i hb
    simp at hb
    exact hb
  · rfl

/-- A receiver that has not yet allocated a buffer, at an initial 1x1
negotiated size. -/
def freshReceiver : SpoutReceiverState :=
  { name := "SourceImage", width := 1, height := 1, buffer := none }

/-- A transport in which the sender advertises 2x2, signals an update
with a new frame, but the first `receiveImage` returns false. -/
def failedFirstEnv : SpoutEnv :=
  { firstResult := false, isUpdated := true, isFrameNew := true
    senderWidth := 2, senderHeight := 2, secondResult := true
    pixels := List.replicate 16 7 }

/-- A transport in which the sender advertises 2x2 with a new frame and
both `receiveImage` calls succeed, delivering non-zero bytes. -/
def successEnv : SpoutEnv :=
  { firstResult := true, isUpdated := true, isFrameNew := true
    senderWidth := 2, senderHeight := 2, secondResult := true
    pixels := List.replicate 16 7 }

/-- Counterexample to C8: when the update is detected but the first
`receiveImage` returned false, `receive_frame` updates the negotiated
size and reallocates the buffer, yet — because the retry at line 63-64
of `spout_handler.py` is guarded by `if result:` — it does not retry
the receive and returns no frame, contrary to the claim that it
retries once and returns a valid frame of the new size. -/
theorem resize_no_retry_after_failed_receive_cex :
    failedFirstEnv.senderWidth ≠ freshReceiver.width
    ∧ failedFirstEnv.isUpdated = true
    ∧ failedFirstEnv.isFrameNew = true
    ∧ (receive_frame freshReceiver failedFirstEnv).1.width = 2
    ∧ (receive_frame freshReceiver failedFirstEnv).1.height = 2
    ∧ (receive_frame freshReceiver failedFirstEnv).1.buffer = some (List.replicate 16 0)
    ∧ (receive_frame freshReceiver failedFirstEnv).2 = none := by
  decide

/-- C8 (amended): whenever `receive_frame` observes the transport's
update signal together with a new frame, it adopts the advertised
width/height and reallocates the internal buffer to exactly
newWidth*newHeight*4 bytes; the receive is retried once against the
new size only when the initial receive succeeded, and when the initial
receive and the retry both succeed with a non-empty delivered buffer
the call returns a valid frame of the new size, without any process
restart. -/
theorem resize_reallocates_and_returns_new_size
    (r r2 : SpoutReceiverState) (env env2 : SpoutEnv)
    (hu2 : env2.isUpdated = true) (hn2 : env2.isFrameNew = true)
    (hu : env.isUpdated = true) (hn : env.isFrameNew = true)
    (h1 : env.firstResult = true) (h2 : env.secondResult = true)
    (hlen : env.pixels.length = env.senderWidth * env.senderHeight * 4)
    (hne : spoutIsBufferEmpty env.pixels = false) :
    ((receive_frame r2 env2).1.width = env2.senderWidth
      ∧ (receive_frame r2 env2).1.height = env2.senderHeight
      ∧ ((receive_frame r2 env2).1.buffer.getD []).length
          = env2.senderWidth * env2.senderHeight * 4)
    ∧ (receive_frame r env).1.buffer = some env.pixels
    ∧ (receive_frame r env).2
        = some { width := env.senderWidth, height := env.senderHeight
                 bytes := env.pixels } := by
  have hwb : writeBytes (List.replicate (env.senderWidth * env.senderHeight * 4) 0)
      env.pixels = env.pixels := by
    unfold writeBytes
    simp [hlen]
  have hpe : env.pixels.isEmpty = false := by
    cases hp : env.pixels with
    | nil => rw [hp] at hne; simp [spoutIsBufferEmpty] at hne
    | cons a l => simp
  constructor
  · unfold receive_frame
    simp only [hu2, hn2, Bool.and_self, if_true]
    refine ⟨?_, ?_, ?_⟩ <;>
      (repeat' split) <;>
        simp [writeBytes_length]
  · unfold receive_frame
    simp only [hu, hn, h1, h2, Bool.and_self, if_true, hwb]
    have hcond : bufferTruthy (some env.pixels) = true := by
      simp [bufferTruthy, hpe]
    simp [hcond, hne]

/-- Witness for `resize_reallocates_and_returns_new_size`: a fresh
receiver against the fully successful 2x2 transport (and, for the
reallocation part, the transport whose first receive failed). -/
theorem resize_reallocates_and_returns_new_size_witness :
    ((receive_frame freshReceiver failedFirstEnv).1.width = failedFirstEnv.senderWidth
      ∧ (receive_frame freshReceiver failedFirstEnv).1.height = failedFirstEnv.senderHeight
      ∧ ((receive_frame freshReceiver failedFirstEnv).1.buffer.getD []).length
          = failedFirstEnv.senderWidth * failedFirstEnv.senderHeight * 4)
    ∧ (receive_frame freshReceiver successEnv).1.buffer = some successEnv.pixels
    ∧ (receive_frame freshReceiver successEnv).2
        = some { width := successEnv.senderWidth, height := successEnv.senderHeight
                 bytes := successEnv.pixels } :=
  resize_reallocates_and_returns_new_size freshReceiver freshReceiver successEnv failedFirstEnv
    (by rfl) (by rfl) (by rfl) (by rfl) (by rfl) (by rfl) (by rfl) (by rfl)
